import Mathlib

/-!
Shallow embedding of the certificate-management core of the Atlas repository
(`backend/app/services/cert_manager.py` and
`backend/app/tasks/scheduled_tasks.py`).

Modelling conventions:
* `datetime` values are integers counting seconds; `timedelta(days = d)`
  is `d * 86400`.
* Python dict results are modelled by the structure `CertResult` with one
  `Option` field per key that any branch of the source can emit.
* The credential mapping `api_credentials : Dict[str, str]` is an
  association list; `key not in api_credentials` is `lookup = none`.
* External side effects (running `systemctl stop/start nginx`, invoking
  `acme.sh`, `chmod`, `mkdir`) are recorded as an explicit `Event` trace;
  each function returns its result together with the trace of effects it
  performed, in order.
* The outcome of the one `subprocess.run` call on `acme.sh` inside each
  function is a parameter of type `RunOutcome`: normal completion with an
  exit code and captured streams, `subprocess.TimeoutExpired`, or another
  exception raised by the call.
* The database query in `check_expiring_certs` /
  `auto_renew_certificates_task` is modelled by an `Except` value holding
  either the full domain table (the filter is then applied to it, mirroring
  the SQLAlchemy `.filter(...).all()`) or the message of a raised exception.
-/

namespace Atlas

/-- Outcome of a single `subprocess.run` invocation. -/
inductive RunOutcome where
  | exit (code : Nat) (stdoutStr stderrStr : String)
  | timedOut
  | exc (msg : String)
deriving Repr, DecidableEq

/-- One observable side effect of the certificate manager. -/
inductive Event where
  | mkdirDir (dir : String)
  | stopWeb
  | startWeb
  | runAcme (verb : String) (domain : String)
  | chmodFile (file : String) (mode : Nat)
deriving Repr, DecidableEq

instance : BEq Event := ⟨fun a b => decide (a = b)⟩

instance : LawfulBEq Event where
  eq_of_beq h := by simpa [BEq.beq] using h
  rfl := by intro a; simp [BEq.beq]

/-- One entry of `CertManager.SUPPORTED_PROVIDERS`. -/
structure ProviderConfig where
  name : String
  dns_type : Option String
  required_keys : List String
  key_names : List (String × String)
deriving Repr, DecidableEq

/-- `CertManager.SUPPORTED_PROVIDERS`, in declaration order. -/
def SUPPORTED_PROVIDERS : List (String × ProviderConfig) :=
  [ ("cloudflare",
      { name := "Cloudflare"
        dns_type := some "dns_cf"
        required_keys := ["CF_Key", "CF_Email"]
        key_names := [("CF_Key", "API Key"), ("CF_Email", "Email")] }),
    ("aliyun",
      { name := "阿里云"
        dns_type := some "dns_ali"
        required_keys := ["Ali_Key", "Ali_Secret"]
        key_names := [("Ali_Key", "Access Key ID"), ("Ali_Secret", "Access Key Secret")] }),
    ("dnspod",
      { name := "DNSPod"
        dns_type := some "dns_dp"
        required_keys := ["DP_Id", "DP_Key"]
        key_names := [("DP_Id", "API ID"), ("DP_Key", "API Key")] }),
    ("godaddy",
      { name := "GoDaddy"
        dns_type := some "dns_gd"
        required_keys := ["GD_Key", "GD_Secret"]
        key_names := [("GD_Key", "API Key"), ("GD_Secret", "API Secret")] }),
    ("standalone",
      { name := "独立模式（需要 80 端口）"
        dns_type := none
        required_keys := []
        key_names := [] }) ]

/-- Result dictionary returned by the issue/renew functions.  Each field is
`none` when the corresponding key is absent from the returned Python dict. -/
structure CertResult where
  success : Bool
  message : Option String := none
  error : Option String := none
  cert_path : Option String := none
  valid_from : Option Int := none
  valid_to : Option Int := none
  renewed_at : Option Int := none
deriving Repr, DecidableEq

/-- `timedelta(days = d)` in seconds. -/
def daysToSec (d : Int) : Int := d * 86400

/-- `s` ends with the suffix `suf` (the `*.pem` glob test), computed
structurally over the character lists. -/
def hasSuffix (suf : String) (s : String) : Bool :=
  suf.data.reverse.isPrefixOf s.data.reverse

/-- If `pat` is a prefix of `s`, the remainder of `s` after it. -/
def dropPrefixChars : List Char → List Char → Option (List Char)
  | [], s => some s
  | _ :: _, [] => none
  | p :: ps, c :: cs => if p = c then dropPrefixChars ps cs else none

/-- Fuel-driven worker for Python `str.replace` (replace every occurrence,
scanning left to right); fuel `s.length` suffices for a non-empty pattern. -/
def replaceAllFuel (pat repl : List Char) : Nat → List Char → List Char
  | 0, s => s
  | _ + 1, [] => []
  | fuel + 1, c :: cs =>
      match dropPrefixChars pat (c :: cs) with
      | some rest => repl ++ replaceAllFuel pat repl fuel rest
      | none => c :: replaceAllFuel pat repl fuel cs

/-- Python `s.replace(pat, repl)`. -/
def pyReplace (s pat repl : String) : String :=
  ⟨replaceAllFuel pat.data repl.data s.data.length s.data⟩

/-- Python `s.strip()`: drop leading and trailing whitespace. -/
def pyStrip (s : String) : String :=
  ⟨((s.data.dropWhile Char.isWhitespace).reverse.dropWhile Char.isWhitespace).reverse⟩

/-- Worker for Python `s.split("\n")`. -/
def splitLinesAux : List Char → List Char → List String
  | [], acc => [⟨acc.reverse⟩]
  | c :: cs, acc =>
      if c = '\n' then ⟨acc.reverse⟩ :: splitLinesAux cs []
      else splitLinesAux cs (c :: acc)

/-- Python `s.split("\n")`. -/
def pySplitLines (s : String) : List String := splitLinesAux s.data []

/-- Python `s.startswith(pre)`. -/
def pyStartsWith (s pre : String) : Bool := pre.data.isPrefixOf s.data

/-- Per-domain certificate directory (`Path(CERTS_DIR) / domain`). -/
def certDirOf (domain : String) : String := "/opt/atlas/certs/" ++ domain

/-- The files `acme.sh` is told to write into the domain directory
(`--cert-file`, `--key-file`, `--fullchain-file`). -/
def producedFiles : List String := ["cert.pem", "privkey.pem", "fullchain.pem"]

/-- Python `result.stderr or result.stdout`: `stderr` unless it is empty. -/
def stderrOrStdout (stderrStr stdoutStr : String) : String :=
  if stderrStr = "" then stdoutStr else stderrStr

/-- `CertManager._set_cert_permissions`: `os.chmod(f, 0o600)` for every
`*.pem` file in the certificate directory (whose contents are `dirFiles`). -/
def set_cert_permissions (dirFiles : List String) : List Event :=
  (dirFiles.filter (fun f => hasSuffix ".pem" f)).map (fun f => Event.chmodFile f 384)

/-- `CertManager.issue_cert_standalone`.  `extraFiles` is whatever else the
domain directory contains besides the three files `acme.sh` produces on
success; `run` is the outcome of the `subprocess.run` call on `acme.sh`. -/
def issue_cert_standalone (domain : String) (_email : String) (now : Int)
    (run : RunOutcome) (extraFiles : List String) : CertResult × List Event :=
  let pre : List Event := [Event.mkdirDir (certDirOf domain), Event.stopWeb,
    Event.runAcme "issue" domain]
  match run with
  | .exit 0 _ _ =>
      ({ success := true
         message := some "证书签发成功"
         cert_path := some (certDirOf domain)
         valid_from := some now
         valid_to := some (now + daysToSec 90) },
       pre ++ set_cert_permissions (producedFiles ++ extraFiles) ++ [Event.startWeb])
  | .exit _ stdoutStr stderrStr =>
      ({ success := false
         error := some ("签发失败: " ++ stderrOrStdout stderrStr stdoutStr) },
       pre ++ [Event.startWeb])
  | .timedOut =>
      ({ success := false, error := some "签发超时（120秒）" },
       pre ++ [Event.startWeb])
  | .exc msg =>
      ({ success := false, error := some msg },
       pre ++ [Event.startWeb])

/-- `CertManager.issue_cert_dns`.  Provider and credential validation happen
before any effect; the trace is empty on every validation failure. -/
def issue_cert_dns (domain : String) (_email : String) (provider : String)
    (api_credentials : List (String × String)) (now : Int)
    (run : RunOutcome) (extraFiles : List String) : CertResult × List Event :=
  match SUPPORTED_PROVIDERS.lookup provider with
  | none => ({ success := false, error := some ("不支持的提供商: " ++ provider) }, [])
  | some cfg =>
    match cfg.dns_type with
    | none => ({ success := false, error := some "该提供商不支持 DNS API" }, [])
    | some _ =>
      match cfg.required_keys.find? (fun k => (api_credentials.lookup k).isNone) with
      | some k =>
          ({ success := false
             error := some ("缺少必需的凭证: " ++ ((cfg.key_names.lookup k).getD "")) }, [])
      | none =>
        let pre : List Event := [Event.mkdirDir (certDirOf domain),
          Event.runAcme "issue" domain]
        match run with
        | .exit 0 _ _ =>
            ({ success := true
               message := some "证书签发成功"
               cert_path := some (certDirOf domain)
               valid_from := some now
               valid_to := some (now + daysToSec 90) },
             pre ++ set_cert_permissions (producedFiles ++ extraFiles))
        | .exit _ stdoutStr stderrStr =>
            ({ success := false
               error := some ("签发失败: " ++ stderrOrStdout stderrStr stdoutStr) },
             pre)
        | .timedOut =>
            ({ success := false, error := some "签发超时（300秒）" }, pre)
        | .exc msg =>
            ({ success := false, error := some msg }, pre)

/-- `CertManager.renew_cert`.  No provider validation, no directory creation,
no web-server stop/start, no permission setting; a `TimeoutExpired` is caught
by the generic `except Exception` handler, whose message we model as the
Python exception text. -/
def renew_cert (domain : String) (_provider : String)
    (_api_credentials : List (String × String)) (now : Int)
    (run : RunOutcome) : CertResult × List Event :=
  let tr : List Event := [Event.runAcme "renew" domain]
  match run with
  | .exit 0 _ _ =>
      ({ success := true
         message := some "证书续期成功"
         renewed_at := some now
         valid_to := some (now + daysToSec 90) }, tr)
  | .exit _ stdoutStr stderrStr =>
      ({ success := false
         error := some ("续期失败: " ++ stderrOrStdout stderrStr stdoutStr) }, tr)
  | .timedOut =>
      ({ success := false
         error := some "Command timed out after 300 seconds" }, tr)
  | .exc msg =>
      ({ success := false, error := some msg }, tr)

/-- The dictionary built by `CertManager.get_cert_info` for a readable
certificate: base keys `domain`, `cert_path`, `exists`, plus one optional
key per recognised `openssl` output line. -/
structure CertInfo where
  domain : String
  cert_path : String
  exists_ : Bool
  valid_from : Option String := none
  valid_to : Option String := none
  subject : Option String := none
deriving Repr, DecidableEq

/-- One iteration of the line loop in `get_cert_info`. -/
def certInfoStep (info : CertInfo) (line : String) : CertInfo :=
  if pyStartsWith line "notBefore=" then
    { info with valid_from := some (pyStrip (pyReplace line "notBefore=" "")) }
  else if pyStartsWith line "notAfter=" then
    { info with valid_to := some (pyStrip (pyReplace line "notAfter=" "")) }
  else if pyStartsWith line "subject=" then
    { info with subject := some (pyStrip (pyReplace line "subject=" "")) }
  else info

/-- `CertManager.get_cert_info`.  `fileExists` models
`Path(...).exists()` for the domain's `fullchain.pem`; `run` is the outcome
of the `openssl x509` invocation.  `none` models the Python `None` returns
(missing file, nonzero exit, exception). -/
def get_cert_info (domain : String) (fileExists : Bool)
    (run : RunOutcome) : Option CertInfo :=
  if !fileExists then none
  else
    match run with
    | .exit 0 stdoutStr _ =>
        some ((pySplitLines (pyStrip stdoutStr)).foldl certInfoStep
          { domain := domain
            cert_path := certDirOf domain ++ "/fullchain.pem"
            exists_ := true })
    | .exit _ _ _ => none
    | .timedOut => none
    | .exc _ => none

/-- The columns of `app.models.domain.Domain` this core reads. -/
structure Domain where
  domainName : String
  cert_valid_to : Option Int
  auto_renew : Bool
  renew_before_days : Int
deriving Repr, DecidableEq

/-- The SQLAlchemy filter of `check_expiring_certs` /
`auto_renew_certificates_task` applied to one row: `cert_valid_to <= expiry`,
`cert_valid_to > now`, `auto_renew == True`; comparisons against a NULL
`cert_valid_to` select nothing. -/
def expiringFilter (now : Int) (days : Int) (d : Domain) : Bool :=
  match d.cert_valid_to with
  | none => false
  | some t => decide (t ≤ now + daysToSec days) && decide (t > now) && d.auto_renew

/-- `CertManager.check_expiring_certs`.  `db` holds either the full `Domain`
table (the filter is applied to it) or the message of an exception raised by
the query, which the function catches, returning `[]`. -/
def check_expiring_certs (db : Except String (List Domain)) (now : Int)
    (days : Int := 30) : List Domain :=
  match db with
  | .error _ => []
  | .ok domains => domains.filter (expiringFilter now days)

/-- What one run of `auto_renew_certificates_task` observably does:
the eligible domains it computed and logged, and the domains for which it
invoked a renewal. -/
structure ScanTrace where
  found : List Domain
  renewInvoked : List String
deriving Repr, DecidableEq

/-- `auto_renew_certificates_task` in `scheduled_tasks.py`: queries domains
with `cert_valid_to <= now + timedelta(days=30)`, `cert_valid_to > now`,
`auto_renew == True`, logs how many it found, and — the renewal loop being
commented out behind a TODO — invokes no renewal for any of them. -/
def auto_renew_certificates_task (db : Except String (List Domain))
    (now : Int) : ScanTrace :=
  match db with
  | .error _ => { found := [], renewInvoked := [] }
  | .ok domains =>
      { found := domains.filter (expiringFilter now 30)
        renewInvoked := [] }

/-- The selection predicate as the specification words it: a domain is
eligible iff `autoRenew = true` and `now < certValidTo <= now + renewBeforeDays`,
with `renewBeforeDays` taken from the domain record itself.  Stated from the
spec for comparison with `expiringFilter`, which the code actually uses. -/
def specEligible (now : Int) (d : Domain) : Bool :=
  match d.cert_valid_to with
  | none => false
  | some t =>
      d.auto_renew && decide (now < t) && decide (t ≤ now + daysToSec d.renew_before_days)

/-- A domain whose per-record renewal window (60 days) exceeds the fixed
30-day window used by the scan. -/
def wideWindowDomain : Domain :=
  { domainName := "wide.example.com"
    cert_valid_to := some (daysToSec 45)
    auto_renew := true
    renew_before_days := 60 }

/-- A domain eligible under both the spec predicate and the code's filter. -/
def eligibleDomain : Domain :=
  { domainName := "due.example.com"
    cert_valid_to := some (daysToSec 15)
    auto_renew := true
    renew_before_days := 30 }

/-- True for the events `renew_cert` is claimed never to emit: web-service
stop/start and certificate-file permission changes. -/
def touchesWebOrPerms : Event → Bool
  | .stopWeb => true
  | .startWeb => true
  | .chmodFile _ _ => true
  | _ => false

/-- C3 counterexample: `wideWindowDomain` has `autoRenew = true`,
`renewBeforeDays = 60` and expires in 45 days, so the claim's predicate
(`now < certValidTo ≤ now + renewBeforeDays`) selects it; but both the
service scan (fixed default window) and the scheduled task (fixed 30-day
window) leave it unselected. -/
theorem scan_ignores_domain_renew_before_days :
    specEligible 0 wideWindowDomain = true ∧
    check_expiring_certs (Except.ok [wideWindowDomain]) 0 = [] ∧
    (auto_renew_certificates_task (Except.ok [wideWindowDomain]) 0).found = [] := by
  decide

/-- C3 (amended): the renewal scan selects a domain iff `autoRenew = true`
and `now < certValidTo ≤ now + days`, where `days` is the scan's fixed
window parameter (30 in the scheduled task); the domain's own
`renewBeforeDays` column is ignored.  Domains with `certValidTo ≤ now` or
`autoRenew = false` are never selected. -/
theorem check_expiring_certs_selects_iff (domains : List Domain) (now days : Int)
    (d : Domain) :
    d ∈ check_expiring_certs (Except.ok domains) now days ↔
      d ∈ domains ∧ d.auto_renew = true ∧
        ∃ t, d.cert_valid_to = some t ∧ now < t ∧ t ≤ now + daysToSec days := by
  simp only [check_expiring_certs, List.mem_filter, expiringFilter]
  cases h : d.cert_valid_to with
  | none => simp [h]
  | some t =>
      simp only [h, Bool.and_eq_true, decide_eq_true_eq, Option.some.injEq]
      constructor
      · rintro ⟨hmem, ⟨hle, hgt⟩, har⟩
        exact ⟨hmem, har, t, rfl, hgt, hle⟩
      · rintro ⟨hmem, har, t', ht', hgt, hle⟩
        cases ht'
        exact ⟨hmem, ⟨hle, hgt⟩, har⟩

/-- C4: the scheduled renewal task computes and logs the eligible domains
but invokes no renewal for any of them — the renewal loop in the source is
commented out behind a TODO, so `renewInvoked` is empty even when an
eligible domain is found. -/
theorem scan_finds_but_never_renews :
    (auto_renew_certificates_task (Except.ok [eligibleDomain]) 0).found =
      [eligibleDomain] ∧
    (auto_renew_certificates_task (Except.ok [eligibleDomain]) 0).renewInvoked = [] := by
  decide

/-- C8: a successful renewal result carries the success flag,
`renewed_at = now` and `valid_to = now + 90 days`, but — unlike a successful
issuance result — no `valid_from` and no `cert_path` key. -/
theorem renew_success_result_shape (domain provider email : String)
    (creds : List (String × String)) (now : Int) (outS errS : String)
    (extraFiles : List String) :
    ((renew_cert domain provider creds now (.exit 0 outS errS)).1.success = true ∧
     (renew_cert domain provider creds now (.exit 0 outS errS)).1.renewed_at = some now ∧
     (renew_cert domain provider creds now (.exit 0 outS errS)).1.valid_to =
       some (now + daysToSec 90) ∧
     (renew_cert domain provider creds now (.exit 0 outS errS)).1.valid_from = none ∧
     (renew_cert domain provider creds now (.exit 0 outS errS)).1.cert_path = none) ∧
    ((issue_cert_standalone domain email now (.exit 0 outS errS) extraFiles).1.valid_from =
       some now ∧
     (issue_cert_standalone domain email now (.exit 0 outS errS) extraFiles).1.cert_path =
       some (certDirOf domain)) := by
  simp [renew_cert, issue_cert_standalone]

/-- C9: for every provider, credential mapping and run outcome, `renew_cert`
emits no web-service stop, no web-service start and no permission change:
its only effect is the external renew command itself. -/
theorem renew_never_touches_web_or_permissions (domain provider : String)
    (creds : List (String × String)) (now : Int) (run : RunOutcome) :
    ((renew_cert domain provider creds now run).2.all
      (fun e => !touchesWebOrPerms e)) = true := by
  cases run with
  | exit code o e => cases code <;> simp [renew_cert, touchesWebOrPerms]
  | timedOut => simp [renew_cert, touchesWebOrPerms]
  | exc m => simp [renew_cert, touchesWebOrPerms]

/-- C10: when the expiring-certificates query raises, `check_expiring_certs`
catches the exception and returns the empty list — the same value an
error-free scan over an empty table returns, so the two are
indistinguishable to the caller. -/
theorem check_expiring_certs_swallows_query_errors (msg : String) (now days : Int) :
    check_expiring_certs (Except.error msg) now days = [] ∧
    check_expiring_certs (Except.ok []) now days = [] :=
  ⟨rfl, rfl⟩

lemma set_cert_permissions_count_stopWeb (files : List String) :
    (set_cert_permissions files).count Event.stopWeb = 0 := by
  rw [List.count_eq_zero]
  simp [set_cert_permissions]

lemma set_cert_permissions_count_startWeb (files : List String) :
    (set_cert_permissions files).count Event.startWeb = 0 := by
  rw [List.count_eq_zero]
  simp [set_cert_permissions]

/-- C1 (amended): for every DNS-based provider, calling issue with a
credentials mapping from which some required key is absent fails with the
missing-credential error naming the first absent key in catalog declaration
order, with no external process invoked and no side effect performed.  (A
key that is present but mapped to an empty value is not detected; see the
counterexample.) -/
theorem issue_dns_missing_credential_short_circuits
    (domain email provider : String) (creds : List (String × String))
    (now : Int) (run : RunOutcome) (extraFiles : List String)
    (cfg : ProviderConfig) (k : String)
    (hp : SUPPORTED_PROVIDERS.lookup provider = some cfg)
    (hd : cfg.dns_type.isSome = true)
    (hk : cfg.required_keys.find? (fun x => (creds.lookup x).isNone) = some k) :
    (issue_cert_dns domain email provider creds now run extraFiles).1.success = false ∧
    (issue_cert_dns domain email provider creds now run extraFiles).1.error =
      some ("缺少必需的凭证: " ++ ((cfg.key_names.lookup k).getD "")) ∧
    (issue_cert_dns domain email provider creds now run extraFiles).2 = [] := by
  obtain ⟨dt, hdt⟩ := Option.isSome_iff_exists.mp hd
  simp [issue_cert_dns, hp, hdt, hk]

/-- C1 witness: the cloudflare provider with a credentials mapping lacking
`CF_Key` fails naming `CF_Key`'s display label, with an empty effect trace. -/
theorem issue_dns_missing_credential_short_circuits_witness :
    (issue_cert_dns "example.com" "a@b.c" "cloudflare" [("CF_Email", "a@b.c")] 0
        (RunOutcome.exit 0 "" "") []).1.success = false ∧
    (issue_cert_dns "example.com" "a@b.c" "cloudflare" [("CF_Email", "a@b.c")] 0
        (RunOutcome.exit 0 "" "") []).1.error = some ("缺少必需的凭证: " ++ "API Key") ∧
    (issue_cert_dns "example.com" "a@b.c" "cloudflare" [("CF_Email", "a@b.c")] 0
        (RunOutcome.exit 0 "" "") []).2 = [] := by
  have h := issue_dns_missing_credential_short_circuits "example.com" "a@b.c"
    "cloudflare" [("CF_Email", "a@b.c")] 0 (RunOutcome.exit 0 "" "") []
    { name := "Cloudflare"
      dns_type := some "dns_cf"
      required_keys := ["CF_Key", "CF_Email"]
      key_names := [("CF_Key", "API Key"), ("CF_Email", "Email")] }
    "CF_Key" (by decide) (by decide) (by decide)
  simpa using h

/-- C1 counterexample: credentials where every required key is present but
`CF_Key` maps to the empty string pass validation — the issuance succeeds
and the external process is invoked, contradicting the claim that an empty
value yields the missing-credential failure with no process run. -/
theorem issue_dns_empty_value_not_detected :
    (issue_cert_dns "example.com" "a@b.c" "cloudflare"
        [("CF_Key", ""), ("CF_Email", "a@b.c")] 0
        (RunOutcome.exit 0 "" "") []).1.success = true ∧
    Event.runAcme "issue" "example.com" ∈
      (issue_cert_dns "example.com" "a@b.c" "cloudflare"
          [("CF_Key", ""), ("CF_Email", "a@b.c")] 0
          (RunOutcome.exit 0 "" "") []).2 := by
  decide

/-- C2: on every exit path of the external issuance attempt — exit code 0,
nonzero exit, timeout, or exception — the standalone issuance trace splits
around the single external command as `pre ++ [issue] ++ post` with exactly
one web-service stop in `pre`, none in `post`, and exactly one web-service
start in `post`, none in `pre`. -/
theorem standalone_stop_start_bracket (domain email : String) (now : Int)
    (run : RunOutcome) (extraFiles : List String) :
    ∃ pre post,
      (issue_cert_standalone domain email now run extraFiles).2 =
        pre ++ [Event.runAcme "issue" domain] ++ post ∧
      pre.count Event.stopWeb = 1 ∧ pre.count Event.startWeb = 0 ∧
      post.count Event.startWeb = 1 ∧ post.count Event.stopWeb = 0 := by
  cases run with
  | exit code o e =>
      cases code with
      | zero =>
          refine ⟨[Event.mkdirDir (certDirOf domain), Event.stopWeb],
            set_cert_permissions (producedFiles ++ extraFiles) ++ [Event.startWeb],
            ?_, by simp [List.count_cons], by simp [List.count_cons], ?_, ?_⟩
          · simp [issue_cert_standalone]
          · simp [List.count_append, List.count_cons, set_cert_permissions_count_startWeb]
          · simp [List.count_append, List.count_cons, set_cert_permissions_count_stopWeb]
      | succ n =>
          exact ⟨[Event.mkdirDir (certDirOf domain), Event.stopWeb], [Event.startWeb],
            by simp [issue_cert_standalone], by simp [List.count_cons],
            by simp [List.count_cons], by simp [List.count_cons],
            by simp [List.count_cons]⟩
  | timedOut =>
      exact ⟨[Event.mkdirDir (certDirOf domain), Event.stopWeb], [Event.startWeb],
        by simp [issue_cert_standalone], by simp [List.count_cons],
        by simp [List.count_cons], by simp [List.count_cons],
        by simp [List.count_cons]⟩
  | exc m =>
      exact ⟨[Event.mkdirDir (certDirOf domain), Event.stopWeb], [Event.startWeb],
        by simp [issue_cert_standalone], by simp [List.count_cons],
        by simp [List.count_cons], by simp [List.count_cons],
        by simp [List.count_cons]⟩

/-- True unless the event is a permission change to a mode other than
`0o600` (owner read/write, no group or world bits: `384 = 6 * 64`). -/
def permEventRestrictive (e : Event) : Bool :=
  match e with
  | .chmodFile _ m => decide (m = 384 ∧ m % 64 = 0 ∧ m / 64 = 6)
  | _ => true

lemma produced_hasSuffix_pem (f : String) (hf : f ∈ producedFiles) :
    hasSuffix ".pem" f = true := by
  simp only [producedFiles, List.mem_cons, List.not_mem_nil, or_false] at hf
  rcases hf with h | h | h <;> subst h <;> decide

lemma chmod_mem_set_cert_permissions (files : List String) (f : String)
    (hf : f ∈ files) (he : hasSuffix ".pem" f = true) :
    Event.chmodFile f 384 ∈ set_cert_permissions files := by
  simp only [set_cert_permissions, List.mem_map]
  exact ⟨f, List.mem_filter.mpr ⟨hf, he⟩, rfl⟩

lemma set_cert_permissions_restrictive (files : List String) :
    (set_cert_permissions files).all permEventRestrictive = true := by
  simp only [set_cert_permissions, List.all_eq_true, List.mem_map]
  rintro e ⟨f, -, rfl⟩
  simp [permEventRestrictive]

/-- C5: whenever the external issuance command exits with code 0 — on the
standalone path unconditionally, and on the DNS path for any known DNS
provider with complete credentials — the result has the success flag,
`valid_from = now` and `valid_to = now + 90 days`. -/
theorem issue_exit_zero_success_window (domain email provider : String)
    (creds : List (String × String)) (now : Int) (outS errS : String)
    (extraFiles : List String) (cfg : ProviderConfig) (dt : String)
    (hp : SUPPORTED_PROVIDERS.lookup provider = some cfg)
    (hd : cfg.dns_type = some dt)
    (hk : cfg.required_keys.find? (fun x => (creds.lookup x).isNone) = none) :
    ((issue_cert_standalone domain email now (.exit 0 outS errS) extraFiles).1.success
        = true ∧
     (issue_cert_standalone domain email now (.exit 0 outS errS) extraFiles).1.valid_from
        = some now ∧
     (issue_cert_standalone domain email now (.exit 0 outS errS) extraFiles).1.valid_to
        = some (now + daysToSec 90)) ∧
    ((issue_cert_dns domain email provider creds now (.exit 0 outS errS) extraFiles).1.success
        = true ∧
     (issue_cert_dns domain email provider creds now (.exit 0 outS errS) extraFiles).1.valid_from
        = some now ∧
     (issue_cert_dns domain email provider creds now (.exit 0 outS errS) extraFiles).1.valid_to
        = some (now + daysToSec 90)) := by
  refine ⟨⟨rfl, rfl, rfl⟩, ?_⟩
  simp [issue_cert_dns, hp, hd, hk]

/-- C5 witness: issuing for `example.com` via cloudflare with complete
credentials and exit code 0 yields the 90-day window from `now = 1000`. -/
theorem issue_exit_zero_success_window_witness :
    ((issue_cert_standalone "example.com" "a@b.c" 1000 (.exit 0 "" "") []).1.success
        = true ∧
     (issue_cert_standalone "example.com" "a@b.c" 1000 (.exit 0 "" "") []).1.valid_from
        = some 1000 ∧
     (issue_cert_standalone "example.com" "a@b.c" 1000 (.exit 0 "" "") []).1.valid_to
        = some (1000 + daysToSec 90)) ∧
    ((issue_cert_dns "example.com" "a@b.c" "cloudflare"
        [("CF_Key", "k"), ("CF_Email", "a@b.c")] 1000 (.exit 0 "" "") []).1.success
        = true ∧
     (issue_cert_dns "example.com" "a@b.c" "cloudflare"
        [("CF_Key", "k"), ("CF_Email", "a@b.c")] 1000 (.exit 0 "" "") []).1.valid_from
        = some 1000 ∧
     (issue_cert_dns "example.com" "a@b.c" "cloudflare"
        [("CF_Key", "k"), ("CF_Email", "a@b.c")] 1000 (.exit 0 "" "") []).1.valid_to
        = some (1000 + daysToSec 90)) :=
  issue_exit_zero_success_window "example.com" "a@b.c" "cloudflare"
    [("CF_Key", "k"), ("CF_Email", "a@b.c")] 1000 "" "" []
    { name := "Cloudflare"
      dns_type := some "dns_cf"
      required_keys := ["CF_Key", "CF_Email"]
      key_names := [("CF_Key", "API Key"), ("CF_Email", "Email")] }
    "dns_cf" (by decide) (by decide) (by decide)

/-- C6: on every issuance whose external command exits 0 (standalone, or DNS
with valid provider and credentials), each produced certificate/key file
receives a permission change to mode `0o600`, and every permission change in
either trace is to `0o600` — owner read/write only, no group or world bits. -/
theorem issue_success_sets_restrictive_permissions (domain email provider : String)
    (creds : List (String × String)) (now : Int) (outS errS : String)
    (extraFiles : List String) (cfg : ProviderConfig) (dt : String)
    (hp : SUPPORTED_PROVIDERS.lookup provider = some cfg)
    (hd : cfg.dns_type = some dt)
    (hk : cfg.required_keys.find? (fun x => (creds.lookup x).isNone) = none) :
    (producedFiles.all (fun f =>
      (issue_cert_standalone domain email now (.exit 0 outS errS) extraFiles).2.contains
          (Event.chmodFile f 384) &&
      (issue_cert_dns domain email provider creds now
          (.exit 0 outS errS) extraFiles).2.contains (Event.chmodFile f 384)) = true) ∧
    (issue_cert_standalone domain email now (.exit 0 outS errS) extraFiles).2.all
        permEventRestrictive = true ∧
    (issue_cert_dns domain email provider creds now (.exit 0 outS errS) extraFiles).2.all
        permEventRestrictive = true := by
  have hmem : ∀ f ∈ producedFiles,
      Event.chmodFile f 384 ∈ set_cert_permissions (producedFiles ++ extraFiles) := by
    intro f hf
    exact chmod_mem_set_cert_permissions _ f (List.mem_append_left _ hf)
      (produced_hasSuffix_pem f hf)
  refine ⟨?_, ?_, ?_⟩
  · rw [List.all_eq_true]
    intro f hf
    rw [Bool.and_eq_true]
    constructor
    · refine List.elem_eq_true_of_mem ?_
      simp only [issue_cert_standalone, List.mem_append]
      exact Or.inl (Or.inr (hmem f hf))
    · refine List.elem_eq_true_of_mem ?_
      simp only [issue_cert_dns, hp, hd, hk, List.mem_append]
      exact Or.inr (hmem f hf)
  · simp only [issue_cert_standalone, List.all_append, Bool.and_eq_true]
    exact ⟨⟨by simp [permEventRestrictive], set_cert_permissions_restrictive _⟩,
      by simp [permEventRestrictive]⟩
  · simp only [issue_cert_dns, hp, hd, hk, List.all_append, Bool.and_eq_true]
    exact ⟨by simp [permEventRestrictive], set_cert_permissions_restrictive _⟩

/-- C6 witness: the concrete cloudflare issuance with exit code 0 chmods
`cert.pem`, `privkey.pem` and `fullchain.pem` to `0o600` and performs no
other permission change, on both paths. -/
theorem issue_success_sets_restrictive_permissions_witness :
    (producedFiles.all (fun f =>
      (issue_cert_standalone "example.com" "a@b.c" 0 (.exit 0 "" "") []).2.contains
          (Event.chmodFile f 384) &&
      (issue_cert_dns "example.com" "a@b.c" "cloudflare"
          [("CF_Key", "k"), ("CF_Email", "a@b.c")] 0
          (.exit 0 "" "") []).2.contains (Event.chmodFile f 384)) = true) ∧
    (issue_cert_standalone "example.com" "a@b.c" 0 (.exit 0 "" "") []).2.all
        permEventRestrictive = true ∧
    (issue_cert_dns "example.com" "a@b.c" "cloudflare"
        [("CF_Key", "k"), ("CF_Email", "a@b.c")] 0 (.exit 0 "" "") []).2.all
        permEventRestrictive = true :=
  issue_success_sets_restrictive_permissions "example.com" "a@b.c" "cloudflare"
    [("CF_Key", "k"), ("CF_Email", "a@b.c")] 0 "" "" []
    { name := "Cloudflare"
      dns_type := some "dns_cf"
      required_keys := ["CF_Key", "CF_Email"]
      key_names := [("CF_Key", "API Key"), ("CF_Email", "Email")] }
    "dns_cf" (by decide) (by decide) (by decide)

lemma certInfoStep_base_fields (info : CertInfo) (l : String) :
    (certInfoStep info l).domain = info.domain ∧
    (certInfoStep info l).cert_path = info.cert_path ∧
    (certInfoStep info l).exists_ = info.exists_ := by
  unfold certInfoStep
  cases h1 : pyStartsWith l "notBefore=" <;>
    cases h2 : pyStartsWith l "notAfter=" <;>
    cases h3 : pyStartsWith l "subject=" <;> simp

lemma certInfoStep_valid_from_isSome (info : CertInfo) (l : String) :
    ((certInfoStep info l).valid_from).isSome =
      (info.valid_from.isSome || pyStartsWith l "notBefore=") := by
  unfold certInfoStep
  cases h1 : pyStartsWith l "notBefore=" <;>
    cases h2 : pyStartsWith l "notAfter=" <;>
    cases h3 : pyStartsWith l "subject=" <;> simp

lemma pyStartsWith_excl (l p q : String)
    (hpq : p.data.isPrefixOf q.data = false) (hqp : q.data.isPrefixOf p.data = false)
    (h : pyStartsWith l p = true) : pyStartsWith l q = false := by
  by_contra hq
  rw [Bool.not_eq_false] at hq
  unfold pyStartsWith at h hq
  rw [List.isPrefixOf_iff_prefix] at h hq
  rcases List.prefix_or_prefix_of_prefix h hq with hc | hc
  · rw [← List.isPrefixOf_iff_prefix, hpq] at hc
    exact Bool.false_ne_true hc
  · rw [← List.isPrefixOf_iff_prefix, hqp] at hc
    exact Bool.false_ne_true hc

lemma certInfoStep_valid_to_isSome (info : CertInfo) (l : String) :
    ((certInfoStep info l).valid_to).isSome =
      (info.valid_to.isSome || pyStartsWith l "notAfter=") := by
  unfold certInfoStep
  cases h2 : pyStartsWith l "notAfter=" with
  | false =>
      cases h1 : pyStartsWith l "notBefore=" <;>
        cases h3 : pyStartsWith l "subject=" <;> simp [h1, h2, h3]
  | true =>
      have h1 : pyStartsWith l "notBefore=" = false :=
        pyStartsWith_excl l "notAfter=" "notBefore=" (by decide) (by decide) h2
      simp [h1, h2]

lemma certInfoStep_subject_isSome (info : CertInfo) (l : String) :
    ((certInfoStep info l).subject).isSome =
      (info.subject.isSome || pyStartsWith l "subject=") := by
  unfold certInfoStep
  cases h3 : pyStartsWith l "subject=" with
  | false =>
      cases h1 : pyStartsWith l "notBefore=" <;>
        cases h2 : pyStartsWith l "notAfter=" <;> simp [h1, h2, h3]
  | true =>
      have h1 : pyStartsWith l "notBefore=" = false :=
        pyStartsWith_excl l "subject=" "notBefore=" (by decide) (by decide) h3
      have h2 : pyStartsWith l "notAfter=" = false :=
        pyStartsWith_excl l "subject=" "notAfter=" (by decide) (by decide) h3
      simp [h1, h2, h3]

lemma foldl_certInfoStep_base_fields (lines : List String) (info : CertInfo) :
    (lines.foldl certInfoStep info).domain = info.domain ∧
    (lines.foldl certInfoStep info).cert_path = info.cert_path ∧
    (lines.foldl certInfoStep info).exists_ = info.exists_ := by
  induction lines generalizing info with
  | nil => exact ⟨rfl, rfl, rfl⟩
  | cons l ls ih =>
      rw [List.foldl_cons]
      obtain ⟨h1, h2, h3⟩ := ih (certInfoStep info l)
      obtain ⟨g1, g2, g3⟩ := certInfoStep_base_fields info l
      exact ⟨h1.trans g1, h2.trans g2, h3.trans g3⟩

lemma foldl_certInfoStep_valid_from_isSome (lines : List String) (info : CertInfo) :
    ((lines.foldl certInfoStep info).valid_from).isSome =
      (info.valid_from.isSome || lines.any (fun l => pyStartsWith l "notBefore=")) := by
  induction lines generalizing info with
  | nil => simp
  | cons l ls ih =>
      rw [List.foldl_cons, ih, certInfoStep_valid_from_isSome, List.any_cons,
        Bool.or_assoc]

lemma foldl_certInfoStep_valid_to_isSome (lines : List String) (info : CertInfo) :
    ((lines.foldl certInfoStep info).valid_to).isSome =
      (info.valid_to.isSome || lines.any (fun l => pyStartsWith l "notAfter=")) := by
  induction lines generalizing info with
  | nil => simp
  | cons l ls ih =>
      rw [List.foldl_cons, ih, certInfoStep_valid_to_isSome, List.any_cons,
        Bool.or_assoc]

lemma foldl_certInfoStep_subject_isSome (lines : List String) (info : CertInfo) :
    ((lines.foldl certInfoStep info).subject).isSome =
      (info.subject.isSome || lines.any (fun l => pyStartsWith l "subject=")) := by
  induction lines generalizing info with
  | nil => simp
  | cons l ls ih =>
      rw [List.foldl_cons, ih, certInfoStep_subject_isSome, List.any_cons,
        Bool.or_assoc]

/-- C7: a missing fullchain file yields `none` (NotFound) for every outcome
of the inspection command, never a hard failure; and whenever the file
exists and the parse command exits 0 — however malformed or incomplete its
output — the result is `some` metadata whose base fields (domain, path,
existence) are always set and in which each optional field is present
exactly when a line labelled with its prefix was parsed: only the fields
that were parsed appear. -/
theorem inspect_not_found_and_partial_parse (domain : String) (run : RunOutcome)
    (outS errS : String) :
    get_cert_info domain false run = none ∧
    ∃ info, get_cert_info domain true (.exit 0 outS errS) = some info ∧
      info.domain = domain ∧
      info.cert_path = certDirOf domain ++ "/fullchain.pem" ∧
      info.exists_ = true ∧
      info.valid_from.isSome =
        (pySplitLines (pyStrip outS)).any (fun l => pyStartsWith l "notBefore=") ∧
      info.valid_to.isSome =
        (pySplitLines (pyStrip outS)).any (fun l => pyStartsWith l "notAfter=") ∧
      info.subject.isSome =
        (pySplitLines (pyStrip outS)).any (fun l => pyStartsWith l "subject=") := by
  refine ⟨rfl, _, rfl, ?_, ?_, ?_, ?_, ?_, ?_⟩
  · exact (foldl_certInfoStep_base_fields _ _).1
  · exact (foldl_certInfoStep_base_fields _ _).2.1
  · exact (foldl_certInfoStep_base_fields _ _).2.2
  · rw [foldl_certInfoStep_valid_from_isSome]; rfl
  · rw [foldl_certInfoStep_valid_to_isSome]; rfl
  · rw [foldl_certInfoStep_subject_isSome]; rfl

end Atlas
